import Mathlib

/-!
Shallow embedding of the turn-resolution core of the roguelike repository:
engine.py (the Engine session state and the enemy sweep / field-of-view
recompute), game_map.py (the visibility grids and the living-actor query)
and input_handlers.py (the modal event-handler state machine: action
resolution, shop buy and sell, inventory letter selection, feat selection
and cone-based monster targeting).

External collaborators that are not files of the repository (actions.py,
entity.py, message_log.py, feat_stuff.py, the tcod library) enter either
as parameters of the embedded functions or as definitions whose doc
comment marks them as modelled from the spec.
-/

namespace OldTcod

/-- Outcome of a call to an external perform() body (the Action and AI
contracts; actions.py is not among the repository files): the call either
returns normally with the mutated engine state, or raises
exceptions.Impossible with a message. A Python exception leaves mutations
already made in place, so the raising outcome also carries the state the
call reached. -/
inductive PerformResult (σ : Type) where
  | ok (s : σ)
  | impossible (s : σ) (msg : String)
deriving Repr

/-- An external perform() body, as a state transformer. -/
def Perform (σ : Type) : Type := σ → PerformResult σ

/-- The Engine fields read or written along the turn-resolution path
(engine.py lines 22-51, input_handlers.py lines 110-140). `world` stands
for all remaining mutable session state (game map, entities, inventories),
which only the external perform bodies and the grid part of update_fov
touch. -/
structure EngineSt (W : Type) where
  message_log : List String
  current_turn : Nat
  player_is_alive : Bool
  world : W
deriving Repr, DecidableEq

/-- Modelled from the spec: message_log.py is not among the repository
files; the spec describes the message log as an append-only ordered
sequence, so add_message appends the text (the color argument carries no
state). -/
def addMessage {W : Type} (s : EngineSt W) (text : String) : EngineSt W :=
  { s with message_log := s.message_log ++ [text] }

/-- One iteration of the loop body of Engine.handle_enemy_turns
(engine.py lines 36-41): try ai.perform() swallowing Impossible, so the
state reached by the failing call is kept and the sweep goes on. -/
def aiStep {W : Type} (s : EngineSt W) (ai : Perform (EngineSt W)) : EngineSt W :=
  match ai s with
  | .ok s' => s'
  | .impossible s' _ => s'

/-- Engine.handle_enemy_turns (engine.py lines 35-41): every living
non-player actor that has an ai attempts ai.perform(); `ais` is the list
of those perform bodies in set-iteration order. -/
def handle_enemy_turns {W : Type} (ais : List (Perform (EngineSt W))) (s : EngineSt W) :
    EngineSt W :=
  ais.foldl aiStep s

/-- Engine.update_fov (engine.py lines 43-51) rewrites the game-map grids
only; on EngineSt it acts on the world component alone. `fovW` is that
grid rewrite; its grid-level content is update_fov_grids below. -/
def update_fov {W : Type} (fovW : W → W) (s : EngineSt W) : EngineSt W :=
  { s with world := fovW s.world }

/-- EventHandler.handle_action (input_handlers.py lines 123-140): perform
the action; on Impossible log the message and report no turn; on success
run the enemy sweep, recompute the field of view and report a turn. -/
def handle_action {W : Type} (ais : List (Perform (EngineSt W))) (fovW : W → W)
    (action : Option (Perform (EngineSt W))) (s : EngineSt W) : EngineSt W × Bool :=
  match action with
  | none => (s, false)
  | some perform =>
    match perform s with
    | .impossible s' msg => (addMessage s' msg, false)
    | .ok s' => (update_fov fovW (handle_enemy_turns ais s'), true)

/-- The modal handler variants that the embedded paths construct or
compare (class declarations of input_handlers.py). -/
inductive Handler where
  | mainGame
  | gameOver
  | historyViewer
  | inventoryActivate
  | shopBuy
  | shopSell
  | featSelection
  | selectMonster
  | singleRangedAttack
deriving Repr, DecidableEq

/-- What self.dispatch(event) produced: the ActionOrHandler union of
input_handlers.py lines 83-89, or None. -/
inductive Dispatched (W : Type) where
  | handler (h : Handler)
  | action (a : Perform (EngineSt W))
  | noAction

/-- Tail of EventHandler.handle_events once dispatch returned an action or
None (input_handlers.py lines 115-121): a turn-advancing action hands
control to the game-over handler when the player died, to the main
handler otherwise; anything else keeps the dispatching handler. -/
def resolve_action {W : Type} (self : Handler) (ais : List (Perform (EngineSt W)))
    (fovW : W → W) (action : Option (Perform (EngineSt W))) (s : EngineSt W) :
    Handler × EngineSt W :=
  let r := handle_action ais fovW action s
  if r.2 then
    if r.1.player_is_alive = false then (.gameOver, r.1) else (.mainGame, r.1)
  else (self, r.1)

/-- EventHandler.handle_events (input_handlers.py lines 110-121). -/
def handle_events {W : Type} (self : Handler) (ais : List (Perform (EngineSt W)))
    (fovW : W → W) (d : Dispatched W) (s : EngineSt W) : Handler × EngineSt W :=
  match d with
  | .handler h => (h, s)
  | .action a => resolve_action self ais fovW (some a) s
  | .noAction => resolve_action self ais fovW none s

/-- Modelled from the spec: actions.py is not among the repository files
and no file under src/ writes current_turn. The spec says the turn
counter is incremented once per resolved player action and that an
Impossible failure never advances it, so a player perform body increments
current_turn by one exactly when it returns normally. -/
def PlayerPerformSpec {W : Type} (p : Perform (EngineSt W)) : Prop :=
  ∀ s : EngineSt W,
    (∀ s₁, p s = .ok s₁ → s₁.current_turn = s.current_turn + 1) ∧
    (∀ s₁ msg, p s = .impossible s₁ msg → s₁.current_turn = s.current_turn)

/-- Modelled from the spec: an AI perform body never touches the turn
counter, which counts resolved player actions only. -/
def AIPerformSpec {W : Type} (a : Perform (EngineSt W)) : Prop :=
  ∀ s : EngineSt W, (aiStep s a).current_turn = s.current_turn

/-- The GameMap visibility grids (game_map.py lines 33-38): numpy boolean
arrays indexed by tile coordinate, embedded as total boolean functions. -/
structure MapGrids where
  visible : Nat → Nat → Bool
  explored : Nat → Nat → Bool

/-- Grid content of Engine.update_fov (engine.py lines 43-51): `fov` is
the array compute_fov returned for the current player position and radius
12 (tcod is external). visible is overwritten wholesale; explored grows
by in-place union and is never cleared. -/
def update_fov_grids (fov : Nat → Nat → Bool) (m : MapGrids) : MapGrids :=
  { visible := fov, explored := fun x y => m.explored x y || fov x y }

/-- A whole sequence of turns at the grid level: one update_fov call per
computed field of view, oldest first. -/
def run_fov_turns (m : MapGrids) (fovs : List (Nat → Nat → Bool)) : MapGrids :=
  fovs.foldl (fun g f => update_fov_grids f g) m

/-- An Item as the shop and inventory handlers use it (entity.py is
external; these are the fields input_handlers.py reads). `pyid` models
Python object identity: the entity classes do not override equality, so
the == and in comparisons of the handlers compare identity. -/
structure Item where
  pyid : Nat
  name : String
  gold_value : Nat
  number_in_stack : Nat
  can_stack : Bool
deriving Repr, DecidableEq

/-- The sixteen equipment slots (components of the player entity;
equipment.py is external): each slot optionally references an inventory
item by object identity. -/
structure Equipment where
  main_hand : Option Nat
  off_hand : Option Nat
  body : Option Nat
  neck : Option Nat
  ranged : Option Nat
  waist : Option Nat
  lring : Option Nat
  rring : Option Nat
  head : Option Nat
  cloak : Option Nat
  eyes : Option Nat
  shirt : Option Nat
  wrists : Option Nat
  feet : Option Nat
  hands : Option Nat
  misc : Option Nat
deriving Repr, DecidableEq

/-- The sixteen-slot tuple whose membership sell_item tests
(input_handlers.py lines 1699-1704). -/
def Equipment.slots (e : Equipment) : List (Option Nat) :=
  [e.main_hand, e.off_hand, e.body, e.neck, e.ranged, e.waist, e.lring,
   e.rring, e.head, e.cloak, e.eyes, e.shirt, e.wrists, e.feet, e.hands, e.misc]

/-- The membership test item in (slot, ...): Python compares object
identity for these entity objects. -/
def Equipment.isWorn (e : Equipment) (it : Item) : Bool :=
  e.slots.contains (some it.pyid)

/-- In-place item.number_in_stack -= 1 seen through the inventory list:
the entry that is the same object gets its stack count lowered. -/
def decStack (items : List Item) (target : Item) : List Item :=
  items.map fun j =>
    if j.pyid = target.pyid then { j with number_in_stack := j.number_in_stack - 1 } else j

/-- list.remove(item): drop the first entry equal (here: identical) to
the item. -/
def removeFirst : List Item → Item → List Item
  | [], _ => []
  | j :: rest, target =>
    if j.pyid = target.pyid then rest else j :: removeFirst rest target

/-- The state ShopSellEventHandler.sell_item reads and writes
(input_handlers.py lines 1696-1714): player gold, the player inventory
list, the equipment slots and the message log. -/
structure SellSt where
  gold : Nat
  items : List Item
  equipment : Equipment
  log : List String
deriving Repr, DecidableEq

/-- ShopSellEventHandler.sell_item (input_handlers.py lines 1696-1714). -/
def sell_item (s : SellSt) (item : Item) : SellSt :=
  if s.equipment.isWorn item then
    { s with log := s.log ++ ["You can't sell something you are wearing."] }
  else if item.gold_value > 0 then
    { s with
      gold := s.gold + item.gold_value / 2,
      log := s.log ++ [s!"You sell the {item.name} for {item.gold_value / 2} gold."],
      items :=
        if item.number_in_stack > 1 then decStack s.items item
        else removeFirst s.items item }
  else
    { s with log := s.log ++ ["The shop has no interest in that item."] }

/-- The state ShopBuyEventHandler.buy_item reads and writes
(input_handlers.py lines 981-1002): player gold, the player inventory and
its capacity, the stock of the shop under the player, and the message
log. -/
structure BuySt where
  gold : Nat
  items : List Item
  capacity : Nat
  for_sale : List Item
  log : List String
deriving Repr, DecidableEq

/-- ShopBuyEventHandler.buy_item (input_handlers.py lines 981-1002).
`fresh` is the identity of the deep-copied clone appended on a
non-stacking purchase (copy.deepcopy builds a new object). The error
outcome is the raised Impossible for a full inventory; the loop
increments the stack of every inventory entry sharing the name of a
stackable template, one message per hit. -/
def buy_item (s : BuySt) (item : Item) (fresh : Nat) : Except String BuySt :=
  if s.items.length ≥ s.capacity then
    .error "Your inventory is full"
  else if s.gold ≥ item.gold_value then
    let hits := (s.items.filter fun j => j.name = item.name).length
    let stackMsgs :=
      List.replicate (if item.can_stack then hits else 0)
        s!"You buy another {item.name} for {item.gold_value} gold."
    let items₁ :=
      if item.can_stack then
        s.items.map fun j =>
          if j.name = item.name then { j with number_in_stack := j.number_in_stack + 1 }
          else j
      else s.items
    let stacking := item.can_stack && (hits != 0)
    let items₂ := if stacking then items₁ else items₁ ++ [{ item with pyid := fresh }]
    let msgs :=
      if stacking then stackMsgs
      else stackMsgs ++ [s!"You buy {item.name} for {item.gold_value} gold."]
    .ok { s with gold := s.gold - item.gold_value, items := items₂, log := s.log ++ msgs }
  else
    .ok { s with log := s.log ++ ["You don't have the gold for that."] }

/-- Keysym constants of tcod.event used by the handlers. -/
def K_a : Int := 97

/-- Keysym of the q key. -/
def K_q : Int := 113

/-- Keysym of the Escape key. -/
def K_ESCAPE : Int := 27

/-- Result of a letter-list ev_keydown: None keeps the handler active;
selecting an entry hands it to the per-handler continuation
(on_item_selected, buy_item, sell_item); any other key falls through to
the AskUserEventHandler default (any key exits). -/
inductive ListKeyResult where
  | stay
  | selected (it : Item)
  | fallthrough
deriving Repr, DecidableEq

/-- InventoryEventHandler.ev_keydown (input_handlers.py lines 1166-1184):
the try around items[index] turns IndexError into the Invalid entry
message, so no exception leaves the handler; with the engine enchant_now
flag set the whole keydown returns None untouched. The pair carries the
result and the messages added. -/
def inventory_ev_keydown (enchant_now : Bool) (items : List Item) (key : Int) :
    ListKeyResult × List String :=
  if enchant_now = false then
    let index := key - K_a
    if 0 ≤ index ∧ index ≤ 26 then
      match items.get? index.toNat with
      | some it => (.selected it, [])
      | none => (.stay, ["Invalid entry."])
    else (.fallthrough, [])
  else (.stay, [])

/-- ShopBuyEventHandler.ev_keydown (input_handlers.py lines 961-979),
with `for_sale` the stock of the shop standing under the player. -/
def shop_buy_ev_keydown (for_sale : List Item) (key : Int) :
    ListKeyResult × List String :=
  let index := key - K_a
  if 0 ≤ index ∧ index ≤ 26 then
    match for_sale.get? index.toNat with
    | some it => (.selected it, [])
    | none => (.stay, ["Invalid entry."])
  else (.fallthrough, [])

/-- The player battler fields the feat-selection handler touches
(components of the player; battler code is external to src/).
combat_feats is the dict from feat name to count, in insertion order. -/
structure FeatBattler where
  combat_feats : List (String × Nat)
  feats_to_take : Nat
  stats_to_take : Nat
  strength : Nat
  dexterity : Nat
  constitution : Nat
  intelligence : Nat
  wisdom : Nat
  charisma : Nat
deriving Repr, DecidableEq

/-- Key list of the combat_feats dict. -/
def featKeys (d : List (String × Nat)) : List String :=
  d.map Prod.fst

/-- dict[k] += 1 when the feat is known, else dict[k] = 1; a new dict key
is appended in insertion order (input_handlers.py lines 717-720). -/
def bumpFeat (d : List (String × Nat)) (k : String) : List (String × Nat) :=
  if (featKeys d).contains k then
    d.map fun e => if e.1 = k then (e.1, e.2 + 1) else e
  else d ++ [(k, 1)]

/-- String comparison used by list.sort() on feat names: nondecreasing
lexicographic order. -/
def strLe (a b : String) : Bool :=
  compare a b != Ordering.gt

/-- Stable insertion for sortStr. -/
def insertStr (x : String) : List String → List String
  | [] => [x]
  | y :: ys => if strLe x y then x :: y :: ys else y :: insertStr x ys

/-- list.sort() on strings. -/
def sortStr : List String → List String
  | [] => []
  | x :: xs => insertStr x (sortStr xs)

/-- The selectable feat list of FeatSelectionEventHandler.ev_keydown
(input_handlers.py lines 702-712): the set union of the not-yet-taken
once-only feats with the repeatable feats, entries failing get_feat_reqs
removed, sorted. get_all_feats and get_feat_reqs live in feat_stuff.py
(external); they enter as the two name lists and the predicate. -/
def main_feats_list (once multiple current : List String) (reqs : String → Bool) :
    List String :=
  sortStr ((((once.filter fun f => !(current.contains f)) ++ multiple).dedup).filter reqs)

/-- The elif chain on stat_choice (input_handlers.py lines 728-741): one
ability score is raised by one. The raise at the end of the source chain
cannot fire: the caller guards stat_choice to 0..5, and under that guard
the final arm is the charisma one. -/
def bumpStat (b : FeatBattler) (stat_choice : Int) : FeatBattler :=
  if stat_choice = 0 then { b with strength := b.strength + 1 }
  else if stat_choice = 1 then { b with dexterity := b.dexterity + 1 }
  else if stat_choice = 2 then { b with constitution := b.constitution + 1 }
  else if stat_choice = 3 then { b with intelligence := b.intelligence + 1 }
  else if stat_choice = 4 then { b with wisdom := b.wisdom + 1 }
  else { b with charisma := b.charisma + 1 }

/-- FeatSelectionEventHandler.ev_keydown (input_handlers.py lines
696-745): the pair is the mutated battler and the handler returned (the
main handler) or none (stay active). A feat pick returns the main handler
at once; a stat pick falls through to the cancel-key check. -/
def feat_selection_ev_keydown (once multiple : List String) (reqs : String → Bool)
    (key : Int) (b : FeatBattler) : FeatBattler × Option Handler :=
  let current := featKeys b.combat_feats
  let main := main_feats_list once multiple current reqs
  let letter_found := key - 97
  if b.feats_to_take > 0 ∧ 0 ≤ letter_found ∧ letter_found < (main.length : Int) then
    let f := main.getD letter_found.toNat ""
    ({ b with
        combat_feats := bumpFeat b.combat_feats f,
        feats_to_take := b.feats_to_take - 1 },
     some .mainGame)
  else
    let b₂ :=
      if b.stats_to_take > 0 then
        let stat_choice := letter_found - (main.length : Int)
        if 0 ≤ stat_choice ∧ stat_choice < 6 then
          bumpStat { b with stats_to_take := b.stats_to_take - 1 } stat_choice
        else b
      else b
    if key = K_q ∨ key = K_ESCAPE then (b₂, some .mainGame) else (b₂, none)

/-- A living actor as the cone-targeting handler sees it; the actors
property (game_map.py lines 44-51) yields the entities that are alive. -/
structure MHActor where
  x : Int
  y : Int
  is_alive : Bool
deriving Repr, DecidableEq

/-- The engine and map fields SelectMonsterHandler.ev_keydown reads and
writes (input_handlers.py lines 1902-1981): player position, the actor
entities of the map in set-iteration order, the visibility grid, the map
extent, the repeat-cycling scratch fields of the engine and the cursor. -/
structure TargetSt where
  player_x : Int
  player_y : Int
  entities : List MHActor
  visible : Int → Int → Bool
  width : Int
  height : Int
  last_keypress : String
  num_pressed : Nat
  mouse_x : Int
  mouse_y : Int

/-- GameMap.actors (game_map.py lines 44-51): the living actors. -/
def livingActors (s : TargetSt) : List MHActor :=
  s.entities.filter (·.is_alive)

/-- The four cardinal cone directions of the NSEW keys. -/
inductive ConeKey where
  | up
  | down
  | left
  | right
deriving Repr, DecidableEq

/-- The last_keypress strings the handler stores per direction. -/
def keyName : ConeKey → String
  | .up => "Up"
  | .down => "Down"
  | .left => "Left"
  | .right => "Right"

/-- Cone membership for one direction: the three nested conditions of
each branch (input_handlers.py lines 1926-1963): strictly on the far side
of the player, on a visible tile, and within the 45-degree cone. -/
def inCone (s : TargetSt) (k : ConeKey) (m : MHActor) : Bool :=
  match k with
  | .up =>
    decide (m.y < s.player_y) && s.visible m.x m.y &&
      decide ((m.y - s.player_y).natAbs ≥ (m.x - s.player_x).natAbs)
  | .down =>
    decide (m.y > s.player_y) && s.visible m.x m.y &&
      decide ((m.y - s.player_y).natAbs ≥ (m.x - s.player_x).natAbs)
  | .left =>
    decide (m.x < s.player_x) && s.visible m.x m.y &&
      decide ((m.y - s.player_y).natAbs ≤ (m.x - s.player_x).natAbs)
  | .right =>
    decide (m.x > s.player_x) && s.visible m.x m.y &&
      decide ((m.y - s.player_y).natAbs ≤ (m.x - s.player_x).natAbs)

/-- The sort key of the distance list: the source takes math.sqrt of this
squared distance; square root is strictly monotone on the integer squared
distances that occur, so ordering by the squared distance is the ordering
sorted produces. -/
def distSq (s : TargetSt) (m : MHActor) : Int :=
  (s.player_x - m.x) * (s.player_x - m.x) + (s.player_y - m.y) * (s.player_y - m.y)

/-- Stable insertion by nondecreasing key, matching the stability of the
sorted builtin: an entry passes every strictly closer entry and every
earlier entry at the same distance. -/
def insertByDist (s : TargetSt) (m : MHActor) : List MHActor → List MHActor
  | [] => [m]
  | j :: rest =>
    if decide (distSq s m ≤ distSq s j) = true then m :: j :: rest
    else j :: insertByDist s m rest

/-- sorted(dist_list, by distance) with a stable sort. -/
def sortByDist (s : TargetSt) : List MHActor → List MHActor
  | [] => []
  | m :: rest => insertByDist s m (sortByDist s rest)

/-- SelectMonsterHandler.ev_keydown for a cone direction key
(input_handlers.py lines 1916-1981): update the repeat count and direction
memory, collect the living visible actors in the cone, sort them closest
first, wrap the repeat index past the end, and move the cursor to the
picked actor (or leave it on the player when the cone is empty), clamped
to the map. -/
def select_monster_keydown (s : TargetSt) (k : ConeKey) : TargetSt :=
  let np := if s.last_keypress = keyName k then s.num_pressed + 1 else 0
  let s₁ := { s with num_pressed := np, last_keypress := keyName k }
  let quick_list := (livingActors s₁).filter (inCone s₁ k)
  let dist_list := sortByDist s₁ quick_list
  match dist_list with
  | [] =>
    let x := max 0 (min s₁.player_x (s₁.width - 1))
    let y := max 0 (min s₁.player_y (s₁.height - 1))
    { s₁ with mouse_x := x, mouse_y := y }
  | _ :: _ =>
    let s₂ :=
      if s₁.num_pressed > dist_list.length - 1 then
        { s₁ with num_pressed := 0, last_keypress := "None" }
      else s₁
    let target := dist_list.getD s₂.num_pressed ⟨s₂.player_x, s₂.player_y, true⟩
    let x := max 0 (min target.x (s₂.width - 1))
    let y := max 0 (min target.y (s₂.height - 1))
    { s₂ with mouse_x := x, mouse_y := y }

/-- The concrete targeting scenario of the cone-cycling property: the
player at (10, 10); living visible actors due north at distance 3
(position (10, 7)) and at distance 5 twice (positions (13, 6) and
(7, 6), both inside the north cone), and one actor to the west at
(6, 10) for the direction-switch check; everything visible; fresh
repeat-cycling state. -/
def mhScenario : TargetSt :=
  { player_x := 10
    player_y := 10
    entities := [⟨10, 7, true⟩, ⟨13, 6, true⟩, ⟨7, 6, true⟩, ⟨6, 10, true⟩]
    visible := fun _ _ => true
    width := 80
    height := 45
    last_keypress := "None"
    num_pressed := 0
    mouse_x := 10
    mouse_y := 10 }

/-- Concrete player action for instantiations: succeeds and advances the
turn counter by one, as the modelled Action contract prescribes. -/
def wPlayerAction : Perform (EngineSt Nat) :=
  fun s => .ok { s with current_turn := s.current_turn + 1 }

/-- Concrete player action for instantiations: raises Impossible without
touching the state. -/
def wFailAction : Perform (EngineSt Nat) :=
  fun s => .impossible s "Something is in the way."

/-- Concrete AI perform body for instantiations: mutates the world
payload and leaves the turn counter alone. -/
def wAI : Perform (EngineSt Nat) :=
  fun s => .ok { s with world := s.world + 1 }

/-- Concrete engine state for instantiations. -/
def wEngine : EngineSt Nat :=
  { message_log := [], current_turn := 5, player_is_alive := true, world := 0 }

/-- Concrete equipment for instantiations: only the main hand holds an
item, the one with identity 1. -/
def wEquipment : Equipment :=
  { main_hand := some 1
    off_hand := none
    body := none
    neck := none
    ranged := none
    waist := none
    lring := none
    rring := none
    head := none
    cloak := none
    eyes := none
    shirt := none
    wrists := none
    feet := none
    hands := none
    misc := none }

/-- Concrete worn item for instantiations: referenced by the main hand
slot of wEquipment. -/
def wSword : Item :=
  { pyid := 1, name := "Sword", gold_value := 30, number_in_stack := 1, can_stack := false }

/-- Concrete sell-handler state for instantiations. -/
def wSellSt : SellSt :=
  { gold := 10, items := [wSword], equipment := wEquipment, log := [] }

/-- Concrete shop template for instantiations: worth more gold than the
buyer holds. -/
def wShield : Item :=
  { pyid := 7, name := "Shield", gold_value := 30, number_in_stack := 1, can_stack := false }

/-- Concrete buy-handler state for instantiations: five gold, room in the
inventory. -/
def wBuySt : BuySt :=
  { gold := 5, items := [wSword], capacity := 26, for_sale := [wShield], log := [] }

/-- Concrete battler for instantiations: one feat point pending, no stat
points, no feats known yet. -/
def wFeatBattler : FeatBattler :=
  { combat_feats := []
    feats_to_take := 1
    stats_to_take := 0
    strength := 10
    dexterity := 10
    constitution := 10
    intelligence := 10
    wisdom := 10
    charisma := 10 }

/-- Concrete battler for instantiations: no feat points, two stat points
pending. -/
def wStatBattler : FeatBattler :=
  { combat_feats := []
    feats_to_take := 0
    stats_to_take := 2
    strength := 10
    dexterity := 10
    constitution := 10
    intelligence := 10
    wisdom := 10
    charisma := 10 }

/-- The enemy sweep never moves the turn counter when every AI perform
body satisfies the modelled AI contract. -/
theorem handle_enemy_turns_turn {W : Type} (ais : List (Perform (EngineSt W)))
    (h : ∀ a ∈ ais, AIPerformSpec a) :
    ∀ s, (handle_enemy_turns ais s).current_turn = s.current_turn := by
  induction ais with
  | nil => intro s; rfl
  | cons a rest ih =>
    intro s
    have hrest : ∀ b ∈ rest, AIPerformSpec b :=
      fun b hb => h b (List.mem_cons_of_mem a hb)
    show (handle_enemy_turns rest (aiStep s a)).current_turn = s.current_turn
    rw [ih hrest (aiStep s a), h a (List.mem_cons_self a rest) s]

/-- The concrete player action satisfies the modelled player contract. -/
theorem wPlayerAction_spec : PlayerPerformSpec wPlayerAction := by
  intro s
  constructor
  · intro s₁ h
    injection h with h
    rw [← h]
  · intro s₁ msg h
    simp [wPlayerAction] at h

/-- The concrete failing action satisfies the modelled player contract. -/
theorem wFailAction_spec : PlayerPerformSpec wFailAction := by
  intro s
  constructor
  · intro s₁ h
    simp [wFailAction] at h
  · intro s₁ msg h
    injection h with h₁ h₂
    rw [← h₁]

/-- The concrete AI body satisfies the modelled AI contract. -/
theorem wAI_spec : AIPerformSpec wAI :=
  fun _ => rfl

/-- C1: when the perform() of a player action returns normally,
EventHandler.handle_action advances the turn counter of the engine by
exactly one and reports a turn elapsed, whatever the list of AI actors of
the enemy sweep (including the empty one) does to the rest of the
state. -/
theorem c1_success_advances_turn {W : Type}
    (ais : List (Perform (EngineSt W))) (fovW : W → W) (p : Perform (EngineSt W))
    (s s₁ : EngineSt W) (hp : PlayerPerformSpec p) (hai : ∀ a ∈ ais, AIPerformSpec a)
    (hok : p s = .ok s₁) :
    (handle_action ais fovW (some p) s).1.current_turn = s.current_turn + 1 ∧
    (handle_action ais fovW (some p) s).2 = true := by
  have hinc := (hp s).1 s₁ hok
  have hrun : handle_action ais fovW (some p) s
      = (update_fov fovW (handle_enemy_turns ais s₁), true) := by
    simp only [handle_action, hok]
  rw [hrun]
  refine ⟨?_, rfl⟩
  show (handle_enemy_turns ais s₁).current_turn = s.current_turn + 1
  rw [handle_enemy_turns_turn ais hai s₁, hinc]

/-- C1 witness: a concrete successful action against one concrete AI
actor advances turn 5 to turn 6. -/
theorem c1_success_advances_turn_witness :
    (handle_action [wAI] id (some wPlayerAction) wEngine).1.current_turn
      = wEngine.current_turn + 1 ∧
    (handle_action [wAI] id (some wPlayerAction) wEngine).2 = true :=
  c1_success_advances_turn [wAI] id wPlayerAction wEngine
    { wEngine with current_turn := wEngine.current_turn + 1 }
    wPlayerAction_spec
    (by
      intro a ha
      rw [List.mem_singleton] at ha
      rw [ha]
      exact wAI_spec)
    rfl

/-- C3: when the perform() of a player action raises Impossible,
EventHandler.handle_action logs the exception message, reports no turn
elapsed, leaves the turn counter where it was, and resolves independently
of the AI list and of the field-of-view rewrite, so no AI actor acts and
no visibility recompute happens. -/
theorem c3_impossible_resolution {W : Type}
    (ais : List (Perform (EngineSt W))) (fovW : W → W) (p : Perform (EngineSt W))
    (s s₁ : EngineSt W) (msg : String) (hp : PlayerPerformSpec p)
    (hfail : p s = .impossible s₁ msg) :
    handle_action ais fovW (some p) s = (addMessage s₁ msg, false) ∧
    (handle_action ais fovW (some p) s).1.current_turn = s.current_turn ∧
    (handle_action ais fovW (some p) s).1.message_log = s₁.message_log ++ [msg] ∧
    ∀ (ais₂ : List (Perform (EngineSt W))) (fovW₂ : W → W),
      handle_action ais₂ fovW₂ (some p) s = handle_action ais fovW (some p) s := by
  have hpre := (hp s).2 s₁ msg hfail
  have hmain : ∀ (l : List (Perform (EngineSt W))) (f : W → W),
      handle_action l f (some p) s = (addMessage s₁ msg, false) := by
    intro l f
    simp only [handle_action, hfail]
  refine ⟨hmain ais fovW, ?_, ?_, fun l f => (hmain l f).trans (hmain ais fovW).symm⟩
  · rw [hmain ais fovW]
    exact hpre
  · rw [hmain ais fovW]
    rfl

/-- C3 witness: a concrete Impossible action leaves turn 5 alone, adds
the failure message and resolves the same against any AI list. -/
theorem c3_impossible_resolution_witness :
    handle_action [wAI] id (some wFailAction) wEngine
      = (addMessage wEngine "Something is in the way.", false) ∧
    (handle_action [wAI] id (some wFailAction) wEngine).1.current_turn
      = wEngine.current_turn ∧
    (handle_action [wAI] id (some wFailAction) wEngine).1.message_log
      = wEngine.message_log ++ ["Something is in the way."] :=
  ⟨(c3_impossible_resolution [wAI] id wFailAction wEngine wEngine
      "Something is in the way." wFailAction_spec rfl).1,
   (c3_impossible_resolution [wAI] id wFailAction wEngine wEngine
      "Something is in the way." wFailAction_spec rfl).2.1,
   (c3_impossible_resolution [wAI] id wFailAction wEngine wEngine
      "Something is in the way." wFailAction_spec rfl).2.2.1⟩

/-- C2 counterexample: a non-main modal handler (the ranged-attack
targeting one) dispatches an action whose perform() raises Impossible;
EventHandler.handle_events returns self, so the next active handler is
not MainGameEventHandler, against the claim that recoverable failure
returns to the default handler uniformly. -/
theorem c2_counterexample :
    (handle_events Handler.singleRangedAttack ([] : List (Perform (EngineSt Nat))) id
      (.action wFailAction) wEngine).1 ≠ Handler.mainGame := by
  decide

/-- C2 (amended): when a dispatched action raises Impossible, the failure
message is logged and handle_events returns the dispatching handler
itself; that handler is the main one exactly when the main handler was
already the dispatching one. -/
theorem c2_amended_failure_keeps_handler {W : Type} (self : Handler)
    (ais : List (Perform (EngineSt W))) (fovW : W → W) (p : Perform (EngineSt W))
    (s s₁ : EngineSt W) (msg : String) (hfail : p s = .impossible s₁ msg) :
    handle_events self ais fovW (.action p) s = (self, addMessage s₁ msg) ∧
    ((handle_events self ais fovW (.action p) s).1 = Handler.mainGame
      ↔ self = Handler.mainGame) := by
  have h1 : handle_events self ais fovW (.action p) s = (self, addMessage s₁ msg) := by
    simp only [handle_events, resolve_action, handle_action, hfail]
    rw [if_neg (by simp)]
  exact ⟨h1, by rw [h1]⟩

/-- C2 witness: the shop-buy handler stays active on a concrete failing
action, with the message logged. -/
theorem c2_amended_failure_keeps_handler_witness :
    handle_events Handler.shopBuy [wAI] id (.action wFailAction) wEngine
      = (Handler.shopBuy, addMessage wEngine "Something is in the way.") ∧
    ((handle_events Handler.shopBuy [wAI] id (.action wFailAction) wEngine).1
      = Handler.mainGame ↔ Handler.shopBuy = Handler.mainGame) :=
  c2_amended_failure_keeps_handler Handler.shopBuy [wAI] id wFailAction wEngine wEngine
    "Something is in the way." rfl

/-- C10: when a dispatched action performs successfully, handle_events
runs the enemy sweep and the visibility recompute and then hands control
to the game-over handler when the player is no longer alive, to the main
handler otherwise, whatever handler dispatched the action. -/
theorem c10_next_handler_after_success {W : Type} (self : Handler)
    (ais : List (Perform (EngineSt W))) (fovW : W → W) (p : Perform (EngineSt W))
    (s s₁ : EngineSt W) (hok : p s = .ok s₁) :
    (handle_events self ais fovW (.action p) s).2
      = update_fov fovW (handle_enemy_turns ais s₁) ∧
    ((update_fov fovW (handle_enemy_turns ais s₁)).player_is_alive = false →
      (handle_events self ais fovW (.action p) s).1 = Handler.gameOver) ∧
    ((update_fov fovW (handle_enemy_turns ais s₁)).player_is_alive = true →
      (handle_events self ais fovW (.action p) s).1 = Handler.mainGame) := by
  have h1 : handle_events self ais fovW (.action p) s
      = (if (update_fov fovW (handle_enemy_turns ais s₁)).player_is_alive = false
          then (Handler.gameOver, update_fov fovW (handle_enemy_turns ais s₁))
          else (Handler.mainGame, update_fov fovW (handle_enemy_turns ais s₁))) := by
    simp only [handle_events, resolve_action, handle_action, hok, if_true]
  rcases ha : (update_fov fovW (handle_enemy_turns ais s₁)).player_is_alive with _ | _
  · rw [ha] at h1
    simp only [if_pos rfl] at h1
    rw [h1]
    exact ⟨rfl, fun _ => rfl, fun h => by simp at h⟩
  · rw [ha] at h1
    rw [if_neg (by simp)] at h1
    rw [h1]
    exact ⟨rfl, fun h => by simp at h, fun _ => rfl⟩

/-- C10 witness: a concrete successful action with the player still
alive hands control to the main handler. -/
theorem c10_next_handler_after_success_witness :
    (handle_events Handler.inventoryActivate [wAI] id (.action wPlayerAction) wEngine).2
      = update_fov id (handle_enemy_turns [wAI]
          { wEngine with current_turn := wEngine.current_turn + 1 }) ∧
    (handle_events Handler.inventoryActivate [wAI] id (.action wPlayerAction) wEngine).1
      = Handler.mainGame :=
  ⟨(c10_next_handler_after_success Handler.inventoryActivate [wAI] id wPlayerAction
      wEngine { wEngine with current_turn := wEngine.current_turn + 1 } rfl).1,
   (c10_next_handler_after_success Handler.inventoryActivate [wAI] id wPlayerAction
      wEngine { wEngine with current_turn := wEngine.current_turn + 1 } rfl).2.2 rfl⟩

/-- C4: one update_fov call overwrites visible with the freshly computed
field of view and unions it into explored, and over any sequence of
update_fov calls a tile once explored stays explored. -/
theorem c4_explored_monotone (fovs : List (Nat → Nat → Bool)) (m : MapGrids) (x y : Nat)
    (h : m.explored x y = true) :
    (run_fov_turns m fovs).explored x y = true ∧
    ∀ (f : Nat → Nat → Bool) (g : MapGrids),
      (update_fov_grids f g).visible = f ∧
      ∀ a b, (update_fov_grids f g).explored a b = (g.explored a b || f a b) := by
  constructor
  · have aux : ∀ (fs : List (Nat → Nat → Bool)) (g : MapGrids), g.explored x y = true →
        (run_fov_turns g fs).explored x y = true := by
      intro fs
      induction fs with
      | nil => intro g hg; exact hg
      | cons f rest ih =>
        intro g hg
        show (run_fov_turns (update_fov_grids f g) rest).explored x y = true
        apply ih
        show (g.explored x y || f x y) = true
        rw [hg]
        rfl
    exact aux fovs m h
  · intro f g
    exact ⟨rfl, fun _ _ => rfl⟩

/-- C4 witness: a tile explored at the start stays explored through two
later field-of-view recomputes that do not see it. -/
theorem c4_explored_monotone_witness :
    (run_fov_turns
      { visible := fun _ _ => false, explored := fun a b => decide (a = 0) && decide (b = 0) }
      [fun _ _ => false, fun a b => decide (a = 1) && decide (b = 1)]).explored 0 0 = true :=
  (c4_explored_monotone [fun _ _ => false, fun a b => decide (a = 1) && decide (b = 1)]
    { visible := fun _ _ => false, explored := fun a b => decide (a = 0) && decide (b = 0) }
    0 0 rfl).1

/-- C6 counterexample: the inventory keydown with the engine enchant_now
flag set, on the letter a with an empty list (index 0, in 0..26 and past
the length), returns None without logging Invalid entry., against the
claim that the message is always logged. -/
theorem c6_counterexample :
    ((0 : Int) ≤ K_a - K_a ∧ K_a - K_a ≤ 26 ∧
      ([] : List Item).length ≤ (K_a - K_a).toNat) ∧
    (inventory_ev_keydown true [] K_a).2 ≠ ["Invalid entry."] := by
  decide

/-- C6 (amended): a pressed letter with index in 0..26 at or past the
list length never escapes the handler: the shop-buy keydown, and the
inventory keydown with the enchant_now flag unset, log Invalid entry. and
return None; the inventory keydown with the flag set returns None without
logging. -/
theorem c6_amended_invalid_entry (items for_sale : List Item) (key : Int)
    (h0 : 0 ≤ key - K_a) (h26 : key - K_a ≤ 26)
    (hi : items.length ≤ (key - K_a).toNat) (hs : for_sale.length ≤ (key - K_a).toNat) :
    inventory_ev_keydown false items key = (.stay, ["Invalid entry."]) ∧
    shop_buy_ev_keydown for_sale key = (.stay, ["Invalid entry."]) ∧
    inventory_ev_keydown true items key = (.stay, []) := by
  have hgi : items.get? (key - K_a).toNat = none := List.get?_eq_none.mpr hi
  have hgs : for_sale.get? (key - K_a).toNat = none := List.get?_eq_none.mpr hs
  refine ⟨?_, ?_, rfl⟩
  · simp only [inventory_ev_keydown, if_pos rfl, if_pos (And.intro h0 h26), hgi]
    rw [if_pos trivial]
  · simp only [shop_buy_ev_keydown, if_pos (And.intro h0 h26), hgs]

/-- C6 witness: the letter c on empty lists logs Invalid entry. and keeps
the handler, silently so under the enchant flag. -/
theorem c6_amended_invalid_entry_witness :
    inventory_ev_keydown false [] 99 = (.stay, ["Invalid entry."]) ∧
    shop_buy_ev_keydown [] 99 = (.stay, ["Invalid entry."]) ∧
    inventory_ev_keydown true [] 99 = (.stay, []) :=
  c6_amended_invalid_entry [] [] 99 (by decide) (by decide) (by decide) (by decide)

/-- C7: selecting an item referenced by any equipment slot in the
shop-sell handler only logs the refusal; gold, the inventory list (and
with it every stack count) are untouched. -/
theorem c7_sell_worn_rejected (s : SellSt) (item : Item)
    (h : s.equipment.isWorn item = true) :
    sell_item s item
      = { s with log := s.log ++ ["You can't sell something you are wearing."] } ∧
    (sell_item s item).gold = s.gold ∧
    (sell_item s item).items = s.items := by
  have h1 : sell_item s item
      = { s with log := s.log ++ ["You can't sell something you are wearing."] } := by
    simp only [sell_item, h]
    rw [if_pos trivial]
  exact ⟨h1, by rw [h1], by rw [h1]⟩

/-- C7 witness: the sword worn in the main hand is refused with no state
change. -/
theorem c7_sell_worn_rejected_witness :
    sell_item wSellSt wSword
      = { wSellSt with log := wSellSt.log ++ ["You can't sell something you are wearing."] } ∧
    (sell_item wSellSt wSword).gold = wSellSt.gold ∧
    (sell_item wSellSt wSword).items = wSellSt.items :=
  c7_sell_worn_rejected wSellSt wSword (by decide)

/-- C8: buying a shop item whose gold value exceeds the player gold, with
room in the inventory, only appends the refusal message: gold, the
inventory list and the shop stock are unchanged. -/
theorem c8_buy_without_gold (s : BuySt) (item : Item) (fresh : Nat)
    (hroom : s.items.length < s.capacity) (hpoor : s.gold < item.gold_value) :
    buy_item s item fresh
      = .ok { s with log := s.log ++ ["You don't have the gold for that."] } ∧
    ∀ s₂, buy_item s item fresh = .ok s₂ →
      s₂.gold = s.gold ∧ s₂.items = s.items ∧ s₂.for_sale = s.for_sale ∧
      s₂.log = s.log ++ ["You don't have the gold for that."] := by
  have h1 : buy_item s item fresh
      = .ok { s with log := s.log ++ ["You don't have the gold for that."] } := by
    simp only [buy_item]
    rw [if_neg (not_le.mpr hroom), if_neg (not_le.mpr hpoor)]
  refine ⟨h1, ?_⟩
  intro s₂ h2
  rw [h1] at h2
  injection h2 with h2
  rw [← h2]
  exact ⟨rfl, rfl, rfl, rfl⟩

/-- C8 witness: five gold cannot buy the thirty-gold shield; only the
message is appended. -/
theorem c8_buy_without_gold_witness :
    buy_item wBuySt wShield 99
      = .ok { wBuySt with log := wBuySt.log ++ ["You don't have the gold for that."] } :=
  (c8_buy_without_gold wBuySt wShield 99 (by decide) (by decide)).1

/-- The stat chain never touches the pending stat-point counter. -/
theorem bumpStat_stats (b : FeatBattler) (sc : Int) :
    (bumpStat b sc).stats_to_take = b.stats_to_take := by
  unfold bumpStat
  split_ifs <;> rfl

/-- C9 counterexample: with one pending feat point and the feat Dodge
selectable, pressing the letter a — not a cancel key — makes the
feat-selection keydown return the main handler, so the handler closes as
a consequence of a valid selection, against the claim that it closes only
on Escape or q. -/
theorem c9_counterexample :
    ((97 : Int) ≠ K_q ∧ (97 : Int) ≠ K_ESCAPE) ∧
    (feat_selection_ev_keydown ["Dodge"] [] (fun _ => true) 97 wFeatBattler).2
      = some Handler.mainGame := by
  decide

/-- C9 (amended): a valid feat selection consumes exactly one pending
feat point and immediately returns control to the main handler; a valid
stat selection consumes exactly one pending stat point and keeps the
handler active when the pressed key is not a cancel key; outside the feat
branch a cancel key (q or Escape) returns the main handler. -/
theorem c9_amended_selection (once multiple : List String) (reqs : String → Bool)
    (key : Int) (b : FeatBattler) :
    (b.feats_to_take > 0 → 0 ≤ key - 97 →
      key - 97 < ((main_feats_list once multiple (featKeys b.combat_feats) reqs).length : Int) →
      (feat_selection_ev_keydown once multiple reqs key b).1.feats_to_take
        = b.feats_to_take - 1 ∧
      (feat_selection_ev_keydown once multiple reqs key b).2 = some Handler.mainGame) ∧
    (¬(b.feats_to_take > 0 ∧ 0 ≤ key - 97 ∧
        key - 97 < ((main_feats_list once multiple (featKeys b.combat_feats) reqs).length : Int)) →
      b.stats_to_take > 0 →
      0 ≤ key - 97 - ((main_feats_list once multiple (featKeys b.combat_feats) reqs).length : Int) →
      key - 97 - ((main_feats_list once multiple (featKeys b.combat_feats) reqs).length : Int) < 6 →
      key ≠ K_q → key ≠ K_ESCAPE →
      (feat_selection_ev_keydown once multiple reqs key b).1.stats_to_take
        = b.stats_to_take - 1 ∧
      (feat_selection_ev_keydown once multiple reqs key b).2 = none) ∧
    (¬(b.feats_to_take > 0 ∧ 0 ≤ key - 97 ∧
        key - 97 < ((main_feats_list once multiple (featKeys b.combat_feats) reqs).length : Int)) →
      (key = K_q ∨ key = K_ESCAPE) →
      (feat_selection_ev_keydown once multiple reqs key b).2 = some Handler.mainGame) := by
  refine ⟨?_, ?_, ?_⟩
  · intro hfe h0 hlt
    simp only [feat_selection_ev_keydown]
    rw [if_pos (⟨hfe, h0, hlt⟩ :
      b.feats_to_take > 0 ∧ 0 ≤ key - 97 ∧
        key - 97 < ((main_feats_list once multiple (featKeys b.combat_feats) reqs).length : Int))]
    exact ⟨rfl, rfl⟩
  · intro hnot hst h0s h6s hq hesc
    simp only [feat_selection_ev_keydown]
    rw [if_neg hnot,
        if_neg (show ¬(key = K_q ∨ key = K_ESCAPE) from fun hc => hc.elim hq hesc),
        if_pos hst, if_pos (And.intro h0s h6s)]
    exact ⟨bumpStat_stats _ _, rfl⟩
  · intro hnot hc
    simp only [feat_selection_ev_keydown]
    rw [if_neg hnot, if_pos hc]

/-- C9 witness: with Dodge selectable, the letter a spends the one feat
point and closes to the main handler; with no feat points and two stat
points, the letter b spends one stat point and stays; q cancels to the
main handler. -/
theorem c9_amended_selection_witness :
    ((feat_selection_ev_keydown ["Dodge"] [] (fun _ => true) 97 wFeatBattler).1.feats_to_take
        = wFeatBattler.feats_to_take - 1 ∧
      (feat_selection_ev_keydown ["Dodge"] [] (fun _ => true) 97 wFeatBattler).2
        = some Handler.mainGame) ∧
    ((feat_selection_ev_keydown ["Dodge"] [] (fun _ => true) 98 wStatBattler).1.stats_to_take
        = wStatBattler.stats_to_take - 1 ∧
      (feat_selection_ev_keydown ["Dodge"] [] (fun _ => true) 98 wStatBattler).2 = none) ∧
    (feat_selection_ev_keydown ["Dodge"] [] (fun _ => true) 113 wStatBattler).2
      = some Handler.mainGame :=
  ⟨(c9_amended_selection ["Dodge"] [] (fun _ => true) 97 wFeatBattler).1
      (by decide) (by decide) (by decide),
   (c9_amended_selection ["Dodge"] [] (fun _ => true) 98 wStatBattler).2.1
      (by decide) (by decide) (by decide) (by decide) (by decide) (by decide),
   (c9_amended_selection ["Dodge"] [] (fun _ => true) 113 wStatBattler).2.2
      (by decide) (by decide)⟩

/-- C5 counterexample: in the distances 3, 5, 5 scenario the third
consecutive up press moves the cursor to (7, 6) — the remaining
distance-5 actor — and not back to the distance-3 actor at (10, 7), so
the claimed wrap on the third press fails. -/
theorem c5_counterexample :
    ((select_monster_keydown (select_monster_keydown
        (select_monster_keydown mhScenario .up) .up) .up).mouse_x,
     (select_monster_keydown (select_monster_keydown
        (select_monster_keydown mhScenario .up) .up) .up).mouse_y)
      ≠ ((10 : Int), (7 : Int)) := by
  decide

/-- C5 (amended): in the distances 3, 5, 5 scenario the first up press
selects the distance-3 actor at (10, 7); the second selects a distance-5
actor, (13, 6); the third selects the remaining distance-5 actor,
(7, 6); the wrap back to the distance-3 actor happens on the fourth
press; and switching to the left key after two up presses resets the
cycle index, selecting the nearest west-cone actor at (6, 10). -/
theorem c5_amended_cycle :
    ((select_monster_keydown mhScenario .up).mouse_x = 10 ∧
     (select_monster_keydown mhScenario .up).mouse_y = 7) ∧
    ((select_monster_keydown (select_monster_keydown mhScenario .up) .up).mouse_x = 13 ∧
     (select_monster_keydown (select_monster_keydown mhScenario .up) .up).mouse_y = 6) ∧
    ((select_monster_keydown (select_monster_keydown
        (select_monster_keydown mhScenario .up) .up) .up).mouse_x = 7 ∧
     (select_monster_keydown (select_monster_keydown
        (select_monster_keydown mhScenario .up) .up) .up).mouse_y = 6) ∧
    ((select_monster_keydown (select_monster_keydown (select_monster_keydown
        (select_monster_keydown mhScenario .up) .up) .up) .up).mouse_x = 10 ∧
     (select_monster_keydown (select_monster_keydown (select_monster_keydown
        (select_monster_keydown mhScenario .up) .up) .up) .up).mouse_y = 7) ∧
    ((select_monster_keydown (select_monster_keydown
        (select_monster_keydown mhScenario .up) .up) .left).mouse_x = 6 ∧
     (select_monster_keydown (select_monster_keydown
        (select_monster_keydown mhScenario .up) .up) .left).mouse_y = 10) := by
  decide

end OldTcod
